import Mathlib

/-!
Verification development for the `servicenow_tools` QA automation toolkit.

The Lean definitions below are a shallow embedding of the Python sources:

* `validate_catalog_item.py` — the catalog item validator (checks,
  `_to_bool`, `determine_overall_status`, `format_list`);
* `servicenow_api.py` — the ServiceNow API client (auth selection,
  pagination in `query_table`, `is_sys_id`, `_is_invalid_table_error`,
  the clone-info and catalog-item-variable fallback resolvers, the OAuth
  token cache);
* `check_uat_clone_date.py` — clone freshness evaluation
  (`parse_servicenow_date`, `evaluate_clone_status`).

JSON field values are modelled by the inductive `Value`; Python dicts are
association lists; network calls are abstracted as explicit inputs
(backends / `Except` results) so that the control flow of the Python code
can be stated and proved as theorems.
-/

/-- A JSON-ish field value as it appears in ServiceNow Table-API payloads:
`null`, a boolean, a string, a number, a nested object, or an array. -/
inductive Value where
  | vNull : Value
  | vBool (b : Bool) : Value
  | vStr (s : String) : Value
  | vNum (n : Int) : Value
  | vObj (fields : List (String × Value)) : Value
  | vList (items : List Value) : Value

/-- Python truthiness (`bool(value)`) on the modelled values: `None`, `False`,
the empty string, `0` and empty containers are falsy, everything else truthy. -/
def pyTruthy : Value → Bool
  | .vNull => false
  | .vBool b => b
  | .vStr s => s != ""
  | .vNum n => n != 0
  | .vObj fields => !fields.isEmpty
  | .vList items => !items.isEmpty

/-- A ServiceNow record: a Python dict from field name to value
(association list, first binding wins, mirroring dict lookup). -/
abbrev SNRecord := List (String × Value)

/-- `record.get(key)` — `none` when the key is absent. -/
def getField (r : SNRecord) (k : String) : Option Value :=
  List.lookup k r

/-- `(record.get(key) or "")` for string-valued fields: the string when the
field holds one, `""` when the field is absent or holds a falsy value.
(A non-string truthy value would raise inside Python's `.strip()`/`.lower()`
call chains and is outside the model.) -/
def getStr (r : SNRecord) (k : String) : String :=
  match List.lookup k r with
  | some (.vStr s) => s
  | _ => ""

/-- `startsWithL hay needle` — the needle is a leading segment of the hay
(character-list level, mirroring Python `str.startswith`). -/
def startsWithL : List Char → List Char → Bool
  | _, [] => true
  | [], _ :: _ => false
  | c :: cs, d :: ds => c == d && startsWithL cs ds

/-- `containsTok hay needle` — the needle occurs contiguously inside the hay
(mirroring Python `needle in hay`). -/
def containsTok : List Char → List Char → Bool
  | [], needle => needle.isEmpty
  | c :: cs, needle => startsWithL (c :: cs) needle || containsTok cs needle

/-- Python `needle in hay` on strings. -/
def strContains (hay needle : String) : Bool :=
  containsTok hay.toList needle.toList

/-- Python `hay.startswith(needle)` on strings. -/
def strStartsWith (hay needle : String) : Bool :=
  startsWithL hay.toList needle.toList

/-- Python `s.lower()` (ASCII case folding, character-list based so that
concrete instances evaluate definitionally). -/
def strLower (s : String) : String := String.mk (s.toList.map Char.toLower)

/-- Python `s.strip()`: drop leading and trailing whitespace. -/
def pyStrip (s : String) : String :=
  String.mk (((s.toList.dropWhile Char.isWhitespace).reverse.dropWhile Char.isWhitespace).reverse)

/-- `_to_bool` from `validate_catalog_item.py`: booleans pass through,
strings compare case-insensitively against `{"true", "1", "yes"}`, and every
other value falls back to Python truthiness (`bool(value)`). -/
def to_bool : Value → Bool
  | .vBool b => b
  | .vStr s => strLower s == "true" || strLower s == "1" || strLower s == "yes"
  | v => pyTruthy v

/-- `ValidationCheck` dataclass: individual check outcome. -/
structure ValidationCheck where
  name : String
  passed : Bool
  severity : String
  details : Option String
deriving DecidableEq, Repr

/-- `PROHIBITED_NAME_TOKENS` from `validate_catalog_item.py`. -/
def PROHIBITED_NAME_TOKENS : List String := ["copy of", "template", "draft", "test"]

/-- `WEAK_DESCRIPTION_TOKENS` from `validate_catalog_item.py`. -/
def WEAK_DESCRIPTION_TOKENS : List String := ["tbd", "lorem", "test", "sample"]

/-- `format_list` from `validate_catalog_item.py` (the Python default
`limit=12` is passed explicitly at call sites here). -/
def format_list (values : List String) (limit : Nat) : String :=
  let seq := values.filter (fun v => v != "")
  if seq.isEmpty then ""
  else if seq.length ≤ limit then String.intercalate ", " seq
  else String.intercalate ", " (seq.take limit) ++ ", ... (+" ++ toString (seq.length - limit) ++ " more)"

/-- `CatalogItemValidator._check_active`: note the Python default
`item.get("active", True)` — an absent `active` field defaults to `True`. -/
def check_active (item : SNRecord) : ValidationCheck :=
  let active := to_bool ((getField item "active").getD (.vBool true))
  { name := "item_active", passed := active, severity := "ERROR",
    details := if active then none else some "Catalog item is inactive." }

/-- `CatalogItemValidator._check_display_name`: fails on the first prohibited
token contained in the lower-cased, trimmed name. -/
def check_display_name (item : SNRecord) : ValidationCheck :=
  let nm := pyStrip (getStr item "name")
  let lower := strLower nm
  match PROHIBITED_NAME_TOKENS.find? (fun tok => strContains lower tok) with
  | some tok =>
      { name := "display_name_clean", passed := false, severity := "ERROR",
        details := some ("Display name contains prohibited token " ++ tok ++ ".") }
  | none => { name := "display_name_clean", passed := true, severity := "INFO", details := none }

/-- `CatalogItemValidator._check_short_description`: yields exactly one check,
whose name depends on the first failing rule (presence, then length, then
placeholder quality). -/
def check_short_description (item : SNRecord) : ValidationCheck :=
  let short_description := pyStrip (getStr item "short_description")
  if short_description == "" then
    { name := "short_description_present", passed := false, severity := "ERROR",
      details := some "Short description is missing." }
  else if short_description.length < 15 then
    { name := "short_description_length", passed := false, severity := "WARNING",
      details := some "Short description is unusually short (<15 characters)." }
  else
    let lower := strLower short_description
    if WEAK_DESCRIPTION_TOKENS.any (fun tok => strContains lower tok) then
      { name := "short_description_quality", passed := false, severity := "WARNING",
        details := some "Short description contains placeholder text." }
    else
      { name := "short_description_quality", passed := true, severity := "INFO", details := none }

/-- `CatalogItemValidator._check_workflow`. -/
def check_workflow (item : SNRecord) : ValidationCheck :=
  let has_workflow :=
    pyTruthy ((getField item "workflow").getD .vNull) ||
    pyTruthy ((getField item "flow_designer_flow").getD .vNull)
  if has_workflow then
    { name := "workflow_attached", passed := true, severity := "INFO", details := none }
  else
    { name := "workflow_attached", passed := false, severity := "ERROR",
      details := some "No workflow or Flow Designer flow is attached to the catalog item." }

/-- `CatalogItemValidator._check_category`. -/
def check_category (item : SNRecord) : ValidationCheck :=
  let category :=
    pyTruthy ((getField item "category").getD .vNull) ||
    pyTruthy ((getField item "categories").getD .vNull)
  if category then
    { name := "category_set", passed := true, severity := "INFO", details := none }
  else
    { name := "category_set", passed := false, severity := "ERROR",
      details := some "Catalog item has no category." }

/-- `CatalogItemValidator._check_media`. -/
def check_media (item : SNRecord) : ValidationCheck :=
  if pyTruthy ((getField item "picture").getD .vNull) || pyTruthy ((getField item "icon").getD .vNull) then
    { name := "media_present", passed := true, severity := "INFO", details := none }
  else
    { name := "media_present", passed := false, severity := "WARNING",
      details := some "Catalog item is missing an icon or picture." }

/-- `CatalogItemValidator._check_variables`: one `variables_defined` check
when no variable rows exist, otherwise one check each for question text, active
state and mandatory help text. -/
def check_variables (vars : List SNRecord) : List ValidationCheck :=
  if vars.isEmpty then
    [{ name := "variables_defined", passed := false, severity := "WARNING",
       details := some "Catalog item has no variables defined." }]
  else
    let invalid_question :=
      (vars.filter (fun v => pyStrip (getStr v "question_text") == "")).map (fun v => getStr v "name")
    let inactive_vars :=
      (vars.filter (fun v => !(to_bool ((getField v "active").getD (.vBool true))))).map
        (fun v => getStr v "name")
    let mandatory_missing_help :=
      (vars.filter (fun v =>
        to_bool ((getField v "mandatory").getD (.vBool false)) &&
        pyStrip (getStr v "help_text") == "")).map (fun v => getStr v "name")
    [ if invalid_question.isEmpty then
        { name := "variable_question_text", passed := true, severity := "INFO", details := none }
      else
        { name := "variable_question_text", passed := false, severity := "ERROR",
          details := some ("Variables missing question text: " ++ format_list invalid_question 12) },
      if inactive_vars.isEmpty then
        { name := "variable_active_state", passed := true, severity := "INFO", details := none }
      else
        { name := "variable_active_state", passed := false, severity := "WARNING",
          details := some ("Inactive variables: " ++ format_list inactive_vars 12) },
      if mandatory_missing_help.isEmpty then
        { name := "variable_help_text", passed := true, severity := "INFO", details := none }
      else
        { name := "variable_help_text", passed := false, severity := "WARNING",
          details := some ("Mandatory variables missing help text: " ++ format_list mandatory_missing_help 12) } ]

/-- The check-assembly portion of `CatalogItemValidator.validate`
(lines 81-88): the six item checks in order, then the variable checks.
The item and variable fetches are abstracted as the two inputs. -/
def validate_checks (item : SNRecord) (vars : List SNRecord) : List ValidationCheck :=
  [check_active item, check_display_name item, check_short_description item,
   check_workflow item, check_category item, check_media item] ++ check_variables vars

/-- `determine_overall_status` from `validate_catalog_item.py`. -/
def determine_overall_status (checks : List ValidationCheck) : String :=
  let has_error := checks.any (fun c => !c.passed && c.severity == "ERROR")
  let has_warning := checks.any (fun c => !c.passed && c.severity == "WARNING")
  if has_error then "FAILED"
  else if has_warning then "PASSED_WITH_WARNINGS"
  else "PASSED"

/-- `ServiceNowAPIError`: message, optional HTTP status code, optional parsed
JSON payload (the `response` attribute is not modelled). -/
structure SNError where
  message : String
  status_code : Option Int
  payload : Option Value

/-- The dynamic computation of `message` inside `_is_invalid_table_error`,
given a payload already known to be a `Mapping`:
`((payload.get("error") or {}).get("message") or "") if isinstance(payload.get("error"), Mapping) else payload.get("error", "")`. -/
def error_message_value (payload : Value) : Value :=
  match payload with
  | .vObj fields =>
    match List.lookup "error" fields with
    | some (.vObj errFields) =>
        match List.lookup "message" errFields with
        | some m => if pyTruthy m then m else .vStr ""
        | none => .vStr ""
    | some errVal => errVal
    | none => .vStr ""
  | _ => .vStr ""

/-- `_is_invalid_table_error` from `servicenow_api.py`: requires HTTP status
exactly 400, a `Mapping` payload, and a string message whose lower-cased form
starts with `"invalid table"`. -/
def is_invalid_table_error (exc : SNError) : Bool :=
  match exc.status_code with
  | some code =>
    if code != 400 then false
    else
      match exc.payload with
      | some (.vObj fields) =>
          match error_message_value (.vObj fields) with
          | .vStr s => strStartsWith (strLower s) "invalid table"
          | _ => false
      | _ => false
  | none => false

/-- `is_sys_id` from `servicenow_api.py`:
`re.fullmatch(r"[0-9a-fA-F]\x7b32\x7d", value or "")`. -/
def isHexChar (c : Char) : Bool :=
  (decide ('0' ≤ c) && decide (c ≤ '9')) ||
  (decide ('a' ≤ c) && decide (c ≤ 'f')) ||
  (decide ('A' ≤ c) && decide (c ≤ 'F'))

/-- `is_sys_id`: exactly 32 hexadecimal characters. -/
def is_sys_id (value : String) : Bool :=
  value.length == 32 && value.toList.all isHexChar

/-- A mock Table-API backend for `query_table`: maps
(`sysparm_offset`, `sysparm_limit`) to the page of records the server
returns for that request. -/
abbrev Backend := Nat → Nat → List SNRecord

/-- One page request issued by `query_table`, with the two pagination
parameters it carried. -/
structure PageRequest where
  sysparm_offset : Nat
  sysparm_limit : Nat
deriving DecidableEq, Repr

/-- The `while True` pagination loop of `ServiceNowAPIClient.query_table`
(lines 143-176), instrumented to also return the list of page requests
issued.  `remaining` mirrors the Python `remaining` variable (`none` when no
`limit` was given).  The Python loop has no iteration bound, so the model
carries a `fuel` argument bounding the number of round trips; every theorem
below holds for all sufficiently large fuel. -/
def query_table_go (backend : Backend) (batch_size : Nat) :
    Nat → Nat → Option Nat → List PageRequest × List SNRecord
  | 0, _, _ => ([], [])
  | fuel + 1, offset, remaining =>
    let lim := match remaining with | none => batch_size | some r => min batch_size r
    let results := backend offset lim
    let req : PageRequest := { sysparm_offset := offset, sysparm_limit := lim }
    if results.isEmpty then ([req], [])
    else
      let fetched := results.length
      if (match remaining with | some r => decide (r ≤ fetched) | none => false) then ([req], results)
      else if fetched < lim then ([req], results)
      else
        let next_remaining := match remaining with | some r => some (r - fetched) | none => none
        let rest := query_table_go backend batch_size fuel (offset + fetched) next_remaining
        (req :: rest.1, results ++ rest.2)

/-- `ServiceNowAPIClient.query_table` over a mock backend: starts at offset 0
with `remaining = limit`. -/
def query_table (backend : Backend) (batch_size : Nat) (limit : Option Nat) (fuel : Nat) :
    List PageRequest × List SNRecord :=
  query_table_go backend batch_size fuel 0 limit

/-- An honest paging backend over a fixed server-side result set: a request at
`offset` for `lim` records returns that slice of `rows` in server order. -/
def paged_backend (rows : List SNRecord) : Backend :=
  fun offset lim => (rows.drop offset).take lim

/-- The tail of `get_clone_info` (lines 209-211): raise the domain-specific
not-found error on an empty record list, else return the first record. -/
def clone_finish (records : List SNRecord) : Except SNError SNRecord :=
  match records with
  | [] => .error { message := "No clone history found for target instance", status_code := none, payload := none }
  | r :: _ => .ok r

/-- `ServiceNowAPIClient.get_clone_info` (lines 187-211) with the two
network queries abstracted: `primary` is the `sys_clone_history` query
result, `fallback` the `_get_clone_info_from_requests`
(`sn_instance_clone_request`) query result.  The `Nat` counts how many times
the fallback query was issued. -/
def get_clone_info (primary : Except SNError (List SNRecord))
    (fallback : Except SNError (List SNRecord)) : Nat × Except SNError SNRecord :=
  match primary with
  | .error exc =>
      if !(is_invalid_table_error exc) then (0, .error exc)
      else
        match fallback with
        | .error e2 => (1, .error e2)
        | .ok records => (1, clone_finish records)
  | .ok records =>
      match records with
      | r :: _ => (0, .ok r)
      | [] =>
        match fallback with
        | .error e2 => (1, .error e2)
        | .ok records2 => (1, clone_finish records2)

/-- Error outcomes of `get_catalog_item_variables`: the sys_id `ValueError`
raised before any request, or a propagated `ServiceNowAPIError`. -/
inductive VarFetchError where
  | valueError (msg : String) : VarFetchError
  | apiError (exc : SNError) : VarFetchError

/-- `ServiceNowAPIClient.get_catalog_item_variables` (lines 234-261) with the
two network queries abstracted: `primary` is the `sc_item_option_new` query
result, `fallback` the `_get_catalog_item_variables_via_item_option` result.
The `Nat` counts fallback invocations.  Note that a successful primary query
is returned directly — even when empty — without touching the fallback. -/
def get_catalog_item_variables (catalog_item_sys_id : String)
    (primary : Except SNError (List SNRecord))
    (fallback : Except SNError (List SNRecord)) : Nat × Except VarFetchError (List SNRecord) :=
  if !(is_sys_id catalog_item_sys_id) then
    (0, .error (.valueError "catalog_item_sys_id must be a valid sys_id"))
  else
    match primary with
    | .ok rows => (0, .ok rows)
    | .error exc =>
      if !(is_invalid_table_error exc) then (0, .error (.apiError exc))
      else
        match fallback with
        | .ok rows => (1, .ok rows)
        | .error e2 => (1, .error (.apiError e2))

/-- Connection settings relevant to authentication
(`ServiceNowEnvironmentConfig`). -/
structure EnvConfig where
  username : Option String
  password : Option String
  client_id : Option String
  client_secret : Option String
  oauth_token_url : Option String
deriving Repr

/-- Python truthiness of an optional string config field: present and
non-empty. -/
def populated : Option String → Bool
  | some s => s != ""
  | none => false

/-- The authentication mode selected by `ServiceNowAPIClient.__init__`
(lines 98-114). -/
inductive AuthSelection where
  | basicAuth (user pass : String) : AuthSelection
  | oauthClientCredentials : AuthSelection
deriving DecidableEq, Repr

/-- The constructor's auth-mode selection (lines 98-114): basic when username
and password are populated, else OAuth client credentials (requiring a token
URL), else a configuration `ValueError`. -/
def select_auth (cfg : EnvConfig) : Except String AuthSelection :=
  if populated cfg.username && populated cfg.password then
    .ok (.basicAuth ((cfg.username).getD "") ((cfg.password).getD ""))
  else if populated cfg.client_id && populated cfg.client_secret then
    if !(populated cfg.oauth_token_url) then
      .error "OAuth token URL missing"
    else .ok .oauthClientCredentials
  else .error "No authentication method configured. Provide username/password or client credentials."

/-- The credentials actually attached to an outgoing request by `_request`. -/
inductive RequestAuth where
  | basicAuth (user pass : String) : RequestAuth
  | bearerToken : RequestAuth
  | noAuth : RequestAuth
deriving DecidableEq, Repr

/-- The auth decision inside `ServiceNowAPIClient._request` (lines 391-395):
start from the constructor's `self._auth`, but whenever `client_id` and
`client_secret` are populated in the config, refresh the OAuth token, attach
`Authorization: Bearer <token>` and drop `auth` to `None` — regardless of the
mode the constructor selected. -/
def request_auth (cfg : EnvConfig) (selected : AuthSelection) : RequestAuth :=
  if populated cfg.client_id && populated cfg.client_secret then .bearerToken
  else
    match selected with
    | .basicAuth u p => .basicAuth u p
    | .oauthClientCredentials => .noAuth

/-- The OAuth token cache held by the client
(`_oauth_token`, `_oauth_expiration_epoch`).  An empty-string token or a zero
epoch is falsy in Python and treated as absent; the model uses `Option`. -/
structure OAuthState where
  oauth_token : Option String
  oauth_expiration_epoch : Option Int
deriving Repr

/-- A successfully parsed OAuth token response (`access_token` plus
`int(payload.get("expires_in", 1800))`). -/
structure TokenResponse where
  access_token : String
  expires_in : Int
deriving Repr

/-- `ServiceNowAPIClient._ensure_oauth_token` (lines 315-348) as a state
transition, with `time.time()` passed in as `now` (whole seconds) and the
token endpoint's successful response passed in as `resp`.  Returns the new
cache state and whether a token fetch was performed. -/
def ensure_oauth_token (auto_refresh_token : Bool) (st : OAuthState) (now : Int)
    (resp : TokenResponse) : OAuthState × Bool :=
  if !auto_refresh_token then (st, false)
  else
    let fresh : Bool :=
      match st.oauth_token, st.oauth_expiration_epoch with
      | some _, some e => decide (now < e - 30)
      | _, _ => false
    if fresh then (st, false)
    else ({ oauth_token := some resp.access_token,
            oauth_expiration_epoch := some (now + resp.expires_in) }, true)

/-- A timezone-aware (UTC) datetime as produced by `parse_servicenow_date`. -/
structure SNDateTime where
  year : Int
  month : Nat
  day : Nat
  hour : Nat
  minute : Nat
  second : Nat
deriving DecidableEq, Repr

/-- Numeric value of a decimal digit character. -/
def digitVal (c : Char) : Nat := c.toNat - 48

/-- `(y % 4 == 0 and y % 100 != 0) or y % 400 == 0` — Gregorian leap year,
as validated by `datetime.strptime`. -/
def is_leap_year (y : Int) : Bool :=
  (y % 4 == 0 && y % 100 != 0) || (y % 400 == 0)

/-- Days in a Gregorian month, as validated by `datetime.strptime`. -/
def days_in_month (y : Int) (m : Nat) : Nat :=
  if m == 2 then (if is_leap_year y then 29 else 28)
  else if m == 4 || m == 6 || m == 9 || m == 11 then 30
  else 31

/-- Parse the 19-character layout `"%Y-%m-%d %H:%M:%S"` (the first — and for
naive ServiceNow timestamps the governing — format in
`parse_servicenow_date`), validating the calendar ranges the way
`datetime.strptime` does. -/
def parse_format_main : List Char → Option SNDateTime
  | [y1, y2, y3, y4, '-', m1, m2, '-', d1, d2, ' ', h1, h2, ':', n1, n2, ':', s1, s2] =>
    if [y1, y2, y3, y4, m1, m2, d1, d2, h1, h2, n1, n2, s1, s2].all Char.isDigit then
      let y : Nat := digitVal y1 * 1000 + digitVal y2 * 100 + digitVal y3 * 10 + digitVal y4
      let mo := digitVal m1 * 10 + digitVal m2
      let da := digitVal d1 * 10 + digitVal d2
      let ho := digitVal h1 * 10 + digitVal h2
      let mi := digitVal n1 * 10 + digitVal n2
      let se := digitVal s1 * 10 + digitVal s2
      if 1 ≤ mo && mo ≤ 12 && 1 ≤ da && da ≤ days_in_month (y : Int) mo &&
         ho ≤ 23 && mi ≤ 59 && se ≤ 59 && 1 ≤ y then
        some { year := (y : Int), month := mo, day := da, hour := ho, minute := mi, second := se }
      else none
    else none
  | _ => none

/-- The format cascade of `parse_servicenow_date`: the plain
`"%Y-%m-%d %H:%M:%S"` layout, or the same layout followed by a fractional
`.%f` part of one to six digits (whose microseconds the model drops, as no
verified property depends on sub-second precision).  The two `%z` layouts for
offset-aware timestamps are not modelled; no verified claim exercises them. -/
def parse_with_formats (cs : List Char) : Option SNDateTime :=
  if cs.length == 19 then parse_format_main cs
  else if cs.length ≥ 21 && cs.get? 19 == some '.' &&
          (cs.drop 20).all Char.isDigit && (cs.drop 20).length ≤ 6 then
    parse_format_main (cs.take 19)
  else none

/-- `parse_servicenow_date` from `check_uat_clone_date.py`: falsy input gives
`None`; a parseable string gives a UTC datetime; anything else raises
`ValueError` (modelled as `Except.error`). -/
def parse_servicenow_date (value : Option String) : Except String (Option SNDateTime) :=
  match value with
  | none => .ok none
  | some s =>
    if s == "" then .ok none
    else
      match parse_with_formats s.toList with
      | some dt => .ok (some dt)
      | none => .error ("Unable to parse ServiceNow date " ++ s)

/-- Days since 1970-01-01 of a Gregorian calendar date (the standard
days-from-civil computation; all divisions act on non-negative operands for
the years `strptime` accepts). -/
def days_from_civil (y : Int) (m : Nat) (d : Nat) : Int :=
  let y2 : Int := if m ≤ 2 then y - 1 else y
  let era : Int := (if 0 ≤ y2 then y2 else y2 - 399) / 400
  let yoe : Int := y2 - era * 400
  let mp : Int := ((m : Int) + 9) % 12
  let doy : Int := (153 * mp + 2) / 5 + (d : Int) - 1
  let doe : Int := yoe * 365 + yoe / 4 - yoe / 100 + doy
  era * 146097 + doe - 719468

/-- POSIX epoch seconds of a UTC datetime. -/
def epoch_of (dt : SNDateTime) : Int :=
  days_from_civil dt.year dt.month dt.day * 86400 +
    (dt.hour : Int) * 3600 + (dt.minute : Int) * 60 + (dt.second : Int)

/-- `CloneStatus` dataclass from `check_uat_clone_date.py`. -/
structure CloneStatus where
  last_clone_date : Option SNDateTime
  days_since_clone : Option Int
  is_stale : Bool
  warning_message : Option String
  raw_record : Option SNRecord
  target_instance_name : Option String

/-- Error outcomes of `evaluate_clone_status`: a propagated
`ServiceNowAPIError` from `get_clone_info`, or the `ValueError` that
`parse_servicenow_date` raises on an unparseable timestamp. -/
inductive CloneEvalError where
  | apiError (exc : SNError) : CloneEvalError
  | valueError (msg : String) : CloneEvalError

/-- A string-valued record field that is Python-truthy (used by the
`record.get("completed") or record.get("finished") or ...` chain). -/
def truthy_str_field (r : SNRecord) (k : String) : Option String :=
  match List.lookup k r with
  | some (.vStr s) => if s != "" then some s else none
  | _ => none

/-- The `timestamp_value` selection in `evaluate_clone_status`
(lines 82-87): the first truthy value among `completed`, `finished`,
`sys_created_on`, `scheduled`. -/
def timestamp_value_of (record : SNRecord) : Option String :=
  match truthy_str_field record "completed" with
  | some s => some s
  | none =>
    match truthy_str_field record "finished" with
    | some s => some s
    | none =>
      match truthy_str_field record "sys_created_on" with
      | some s => some s
      | none => truthy_str_field record "scheduled"

/-- `evaluate_clone_status` from `check_uat_clone_date.py` (lines 69-119),
with the `get_clone_info` network call abstracted as `clone_info` and
`datetime.now(tz=UTC)` passed in as `now_utc` (epoch seconds).
`days_since` is `(now_utc - finished_at).days`, i.e. the floor of the
difference in whole days; `is_stale` is the strict comparison
`days_since > stale_after_days`. -/
def evaluate_clone_status (clone_info : Except SNError SNRecord)
    (target_instance_name : String) (stale_after_days : Int) (now_utc : Int) :
    Except CloneEvalError CloneStatus :=
  match clone_info with
  | .error exc => .error (.apiError exc)
  | .ok record =>
    match parse_servicenow_date (timestamp_value_of record) with
    | .error msg => .error (.valueError msg)
    | .ok none =>
        .ok { last_clone_date := none, days_since_clone := none, is_stale := true,
              warning_message := some "Clone history record is missing a finished timestamp.",
              raw_record := some record, target_instance_name := some target_instance_name }
    | .ok (some finished_at) =>
        let days_since : Int := Int.fdiv (now_utc - epoch_of finished_at) 86400
        let is_stale := stale_after_days < days_since
        let warning_message :=
          if is_stale then
            some ("UAT clone is stale: " ++ toString days_since ++
              " days since clone (threshold " ++ toString stale_after_days ++ " days).")
          else none
        .ok { last_clone_date := some finished_at, days_since_clone := some days_since,
              is_stale := is_stale, warning_message := warning_message,
              raw_record := some record, target_instance_name := some target_instance_name }

/-! ### Concrete inputs used by the theorems below -/

/-- A syntactically valid sys_id (32 hex characters). -/
def sysIdGood : String := "0123456789abcdef0123456789abcdef"

/-- A catalog item record with no `active` field at all. -/
def itemWithoutActive : SNRecord := [("name", Value.vStr "Laptop Request Item")]

/-- A fully populated, healthy catalog item record. -/
def goodItem : SNRecord :=
  [("name", Value.vStr "Laptop Request"),
   ("short_description", Value.vStr "Order a corporate laptop device"),
   ("active", Value.vStr "true"),
   ("workflow", Value.vStr "wf1"),
   ("category", Value.vStr "hardware"),
   ("icon", Value.vStr "icon.png")]

/-- One healthy, non-mandatory catalog item variable. -/
def goodVars : List SNRecord :=
  [[("name", Value.vStr "cpu"),
    ("question_text", Value.vStr "Which CPU?"),
    ("active", Value.vStr "true"),
    ("mandatory", Value.vStr "false"),
    ("help_text", Value.vStr "")]]

/-- An error payload whose `error.message` starts (case-insensitively) with
`"invalid table"`. -/
def invalidTablePayload : Value :=
  .vObj [("error", .vObj [("message", Value.vStr "Invalid table sys_clone_history"),
                          ("detail", Value.vNull)]),
         ("status", Value.vStr "failure")]

/-- An invalid-table message arriving with HTTP status 500. -/
def err500 : SNError :=
  { message := "ServiceNow API request failed", status_code := some 500,
    payload := some invalidTablePayload }

/-- An invalid-table message arriving with HTTP status 400 (the shape
`_is_invalid_table_error` recognises). -/
def err400 : SNError :=
  { message := "ServiceNow API request failed", status_code := some 400,
    payload := some invalidTablePayload }

/-- A completed clone record as returned by the fallback table. -/
def sampleCloneRecord : SNRecord :=
  [("target_instance", Value.vStr "uatinst"),
   ("state", Value.vStr "Completed"),
   ("completed", Value.vStr "2024-01-01 00:00:00")]

/-- The clone record of the spec scenario: `completed = "2024-01-01 00:00:00"`. -/
def cloneScenarioRecord : SNRecord :=
  [("source_instance", Value.vStr "prodinst"),
   ("target_instance", Value.vStr "uatinst"),
   ("state", Value.vStr "Completed"),
   ("completed", Value.vStr "2024-01-01 00:00:00")]

/-- A variable row that only the fallback resolver would return. -/
def fallbackVarRecord : SNRecord :=
  [("sys_id", Value.vStr "ffffffffffffffffffffffffffffffff"),
   ("name", Value.vStr "os_version")]

/-- A config with BOTH the basic pair and the client-credential pair
populated. -/
def bothModesConfig : EnvConfig :=
  { username := some "svc_user", password := some "svc_pass",
    client_id := some "oauth_client", client_secret := some "oauth_secret",
    oauth_token_url := some "https://dev.example.com/oauth_token.do" }

/-- A config with only the basic pair populated. -/
def basicOnlyConfig : EnvConfig :=
  { username := some "svc_user", password := some "svc_pass",
    client_id := none, client_secret := none, oauth_token_url := none }

/-- Five distinct server-side records, for a pagination run with
`batch_size = 2` (pages of sizes 2, 2, 1). -/
def rows5 : List SNRecord :=
  [[("sys_id", Value.vStr "r1")], [("sys_id", Value.vStr "r2")],
   [("sys_id", Value.vStr "r3")], [("sys_id", Value.vStr "r4")],
   [("sys_id", Value.vStr "r5")]]

/-! ### Helper lemmas -/

theorem check_active_name (item : SNRecord) : (check_active item).name = "item_active" := rfl

theorem check_display_name_name (item : SNRecord) :
    (check_display_name item).name = "display_name_clean" := by
  unfold check_display_name
  dsimp only
  split <;> rfl

theorem check_workflow_name (item : SNRecord) :
    (check_workflow item).name = "workflow_attached" := by
  unfold check_workflow
  dsimp only
  split <;> rfl

theorem check_category_name (item : SNRecord) :
    (check_category item).name = "category_set" := by
  unfold check_category
  dsimp only
  split <;> rfl

theorem check_media_name (item : SNRecord) :
    (check_media item).name = "media_present" := by
  unfold check_media
  split <;> rfl

theorem check_short_description_name_cases (item : SNRecord) :
    (check_short_description item).name = "short_description_present" ∨
    (check_short_description item).name = "short_description_length" ∨
    (check_short_description item).name = "short_description_quality" := by
  unfold check_short_description
  dsimp only
  split_ifs <;> simp

theorem check_variables_names (vars : List SNRecord) :
    (check_variables vars).map (fun c => c.name) =
      if vars.isEmpty then ["variables_defined"]
      else ["variable_question_text", "variable_active_state", "variable_help_text"] := by
  unfold check_variables
  split
  · rfl
  · dsimp only
    split_ifs <;> rfl

/-! ### Claim theorems -/

/-- Claim C1: `determine_overall_status` is `FAILED` exactly when some check
failed with severity ERROR; otherwise `PASSED_WITH_WARNINGS` exactly when
some check failed with severity WARNING; otherwise `PASSED`.  It is a pure
function of the check list. -/
theorem determine_overall_status_spec (checks : List ValidationCheck) :
    (determine_overall_status checks = "FAILED" ↔
      ∃ c ∈ checks, c.passed = false ∧ c.severity = "ERROR") ∧
    (determine_overall_status checks = "PASSED_WITH_WARNINGS" ↔
      ((¬ ∃ c ∈ checks, c.passed = false ∧ c.severity = "ERROR") ∧
        ∃ c ∈ checks, c.passed = false ∧ c.severity = "WARNING")) ∧
    (determine_overall_status checks = "PASSED" ↔
      ((¬ ∃ c ∈ checks, c.passed = false ∧ c.severity = "ERROR") ∧
        ¬ ∃ c ∈ checks, c.passed = false ∧ c.severity = "WARNING")) := by
  have hE : (checks.any fun c => !c.passed && c.severity == "ERROR") = true ↔
      ∃ c ∈ checks, c.passed = false ∧ c.severity = "ERROR" := by
    simp [List.any_eq_true]
  have hW : (checks.any fun c => !c.passed && c.severity == "WARNING") = true ↔
      ∃ c ∈ checks, c.passed = false ∧ c.severity = "WARNING" := by
    simp [List.any_eq_true]
  have d1 : ("FAILED" : String) ≠ "PASSED_WITH_WARNINGS" := by decide
  have d2 : ("FAILED" : String) ≠ "PASSED" := by decide
  have d3 : ("PASSED_WITH_WARNINGS" : String) ≠ "PASSED" := by decide
  cases hEb : checks.any (fun c => !c.passed && c.severity == "ERROR") <;>
    cases hWb : checks.any (fun c => !c.passed && c.severity == "WARNING") <;>
      simp [determine_overall_status, hEb, hWb, ← hE, ← hW, d1, d2, d3]

/-- Claim C6 counterexample: the claim states that `toBool` returns false for
every value other than boolean true and the strings true/1/yes, and that a
missing `active` field counts as false for the `item_active` check.  On the
code, `_to_bool(1)` is true (`bool(1)`), and an item with no `active` field
at all passes `item_active` (the Python default is `item.get("active", True)`). -/
theorem to_bool_claim_counterexample :
    to_bool (Value.vNum 1) = true ∧
    List.lookup "active" itemWithoutActive = none ∧
    (check_active itemWithoutActive).passed = true :=
  ⟨rfl, rfl, rfl⟩

/-- Claim C6 (amended): `_to_bool` returns true for boolean true, for strings
whose lower-casing is `"true"`, `"1"` or `"yes"`, and for any other
Python-truthy value (non-zero numbers, non-empty objects/arrays); it returns
false for everything else (`None`, false, other strings, zero, empty
containers).  The `item_active` check passes iff the `active` field's value
coerces to true, with a MISSING `active` field defaulting to TRUE. -/
theorem to_bool_spec :
    (∀ v : Value, to_bool v = true ↔
      (v = .vBool true ∨
        (∃ s, v = .vStr s ∧ (strLower s = "true" ∨ strLower s = "1" ∨ strLower s = "yes")) ∨
        (∃ n, v = .vNum n ∧ n ≠ 0) ∨
        (∃ l, v = .vObj l ∧ l ≠ []) ∨
        (∃ l, v = .vList l ∧ l ≠ []))) ∧
    (∀ item : SNRecord,
      ((check_active item).passed = true ↔
        (List.lookup "active" item = none ∨
          ∃ v, List.lookup "active" item = some v ∧ to_bool v = true))) := by
  constructor
  · intro v
    cases v <;> simp [to_bool, pyTruthy, or_assoc]
  · intro item
    cases h : List.lookup "active" item with
    | none => simp [check_active, getField, h, to_bool]
    | some v => simp [check_active, getField, h]

/-- Claim C7: with OAuth client credentials active, the cached token is
treated as expired exactly when `now ≥ expiry_epoch - 30`; after a fetch at
`t0` with `expires_in = N` the recorded expiry is `t0 + N`, a call at
`t0 + N - 31` does not fetch a new token, and a call at `t0 + N - 29` does. -/
theorem ensure_oauth_token_expiry_boundary :
    (∀ (tok : String) (e now : Int) (resp : TokenResponse),
      ((ensure_oauth_token true
          { oauth_token := some tok, oauth_expiration_epoch := some e } now resp).2 = true ↔
        e - 30 ≤ now)) ∧
    (∀ (t0 : Int) (resp resp31 resp29 : TokenResponse),
      (ensure_oauth_token true { oauth_token := none, oauth_expiration_epoch := none }
          t0 resp).1.oauth_expiration_epoch = some (t0 + resp.expires_in) ∧
      (ensure_oauth_token true
          ((ensure_oauth_token true { oauth_token := none, oauth_expiration_epoch := none } t0 resp).1)
          (t0 + resp.expires_in - 31) resp31).2 = false ∧
      (ensure_oauth_token true
          ((ensure_oauth_token true { oauth_token := none, oauth_expiration_epoch := none } t0 resp).1)
          (t0 + resp.expires_in - 29) resp29).2 = true) := by
  constructor
  · intro tok e now resp
    by_cases h : now < e - 30 <;> simp [ensure_oauth_token, h] <;> omega
  · intro t0 resp resp31 resp29
    have h31 : t0 + resp.expires_in - 31 < t0 + resp.expires_in - 30 := by omega
    have h29 : ¬ (t0 + resp.expires_in - 29 < t0 + resp.expires_in - 30) := by omega
    refine ⟨rfl, ?_, ?_⟩ <;> simp [ensure_oauth_token, h31, h29]

/-- Claim C2: the spec guarantees that with both credential pairs populated,
basic auth takes priority and every table-API request is sent with basic
auth, never with an OAuth bearer token.  The constructor (lines 98-114) does
select basic auth, but `_request` (lines 391-395) re-checks
`client_id`/`client_secret` on every request and, when they are populated,
fetches an OAuth token, injects a Bearer header, and drops the basic
credentials — so with both pairs populated every request goes out with a
bearer token despite the constructor's selection (and despite the
constructor never validating `oauth_token_url` on that path).  On the
basic-only config the selection is honoured. -/
theorem request_auth_overrides_constructor_selection :
    select_auth bothModesConfig = .ok (.basicAuth "svc_user" "svc_pass") ∧
    request_auth bothModesConfig (.basicAuth "svc_user" "svc_pass") = .bearerToken ∧
    select_auth basicOnlyConfig = .ok (.basicAuth "svc_user" "svc_pass") ∧
    request_auth basicOnlyConfig (.basicAuth "svc_user" "svc_pass") =
      .basicAuth "svc_user" "svc_pass" :=
  ⟨rfl, rfl, rfl, rfl⟩

/-- Claim C10: `get_catalog_item_variables` raises `ValueError` exactly for
arguments that are not 32 hexadecimal characters, before any network request
(the result is the `ValueError` uniformly in the primary/fallback backends),
and never raises `ValueError` for a valid sys_id. -/
theorem get_catalog_item_variables_sys_id_guard (s : String)
    (primary fallback : Except SNError (List SNRecord)) :
    (is_sys_id s = false →
      get_catalog_item_variables s primary fallback =
        (0, .error (.valueError "catalog_item_sys_id must be a valid sys_id"))) ∧
    (is_sys_id s = true →
      ∀ msg, (get_catalog_item_variables s primary fallback).2 ≠ .error (.valueError msg)) ∧
    (is_sys_id s = true ↔ (s.length = 32 ∧ ∀ c ∈ s.toList, isHexChar c = true)) := by
  refine ⟨?_, ?_, ?_⟩
  · intro h
    simp [get_catalog_item_variables, h]
  · intro h msg
    cases primary with
    | ok rows => simp [get_catalog_item_variables, h]
    | error exc =>
      cases hF : is_invalid_table_error exc
      · simp [get_catalog_item_variables, h, hF]
      · cases fallback with
        | ok rows => simp [get_catalog_item_variables, h, hF]
        | error e2 => simp [get_catalog_item_variables, h, hF]
  · simp [is_sys_id, List.all_eq_true]

/-- Witness for C10: a non-sys_id argument yields the `ValueError` result,
and a 32-hex-character argument never does. -/
theorem get_catalog_item_variables_sys_id_guard_witness :
    get_catalog_item_variables "laptop-request" (.ok []) (.ok []) =
      (0, .error (.valueError "catalog_item_sys_id must be a valid sys_id")) ∧
    (get_catalog_item_variables sysIdGood (.ok []) (.ok [])).2 ≠
      .error (.valueError "catalog_item_sys_id must be a valid sys_id") :=
  ⟨(get_catalog_item_variables_sys_id_guard "laptop-request" (.ok []) (.ok [])).1 (by decide),
   (get_catalog_item_variables_sys_id_guard sysIdGood (.ok []) (.ok [])).2.1 (by decide) _⟩

/-- Claim C4 counterexample: an error whose payload message starts
(case-insensitively) with `"invalid table"` but whose HTTP status is 500 is
NOT recognised by `_is_invalid_table_error` (which additionally requires
status 400), so both resolvers propagate it with no fallback attempt —
the claim as stated says every such message triggers exactly one retry. -/
theorem invalid_table_message_without_400_no_fallback :
    strStartsWith (strLower "Invalid table sys_clone_history") "invalid table" = true ∧
    error_message_value invalidTablePayload = .vStr "Invalid table sys_clone_history" ∧
    is_invalid_table_error err500 = false ∧
    get_clone_info (.error err500) (.ok [sampleCloneRecord]) = (0, .error err500) ∧
    get_catalog_item_variables sysIdGood (.error err500) (.ok [fallbackVarRecord]) =
      (0, .error (.apiError err500)) :=
  ⟨by decide, rfl, rfl, rfl, rfl⟩

/-- Claim C4 (amended): an error triggers the single fallback retry exactly
when `_is_invalid_table_error` accepts it — HTTP status 400, a mapping
payload, and an `error.message` string starting case-insensitively with
`"invalid table"`; every other error propagates immediately with no fallback
attempt.  This holds for both the clone-info resolver and the
catalog-item-variable resolver. -/
theorem invalid_table_fallback_policy (exc : SNError) (sid : String)
    (fbClone fbVars : Except SNError (List SNRecord))
    (hsid : is_sys_id sid = true) :
    (is_invalid_table_error exc = true →
      (get_clone_info (.error exc) fbClone).1 = 1 ∧
      (get_clone_info (.error exc) fbClone).2 =
        (match fbClone with
         | .error e2 => .error e2
         | .ok records => clone_finish records) ∧
      (get_catalog_item_variables sid (.error exc) fbVars).1 = 1 ∧
      (get_catalog_item_variables sid (.error exc) fbVars).2 =
        (match fbVars with
         | .error e2 => .error (.apiError e2)
         | .ok rows => .ok rows)) ∧
    (is_invalid_table_error exc = false →
      get_clone_info (.error exc) fbClone = (0, .error exc) ∧
      get_catalog_item_variables sid (.error exc) fbVars = (0, .error (.apiError exc))) := by
  constructor
  · intro h
    refine ⟨?_, ?_, ?_, ?_⟩ <;>
      first
        | (cases fbClone <;> simp [get_clone_info, h])
        | (cases fbVars <;> simp [get_catalog_item_variables, h, hsid])
  · intro h
    exact ⟨by simp [get_clone_info, h], by simp [get_catalog_item_variables, h, hsid]⟩

/-- Witness for C4 (amended): a status-400 invalid-table error makes both
resolvers consult the fallback exactly once, while the status-500 variant
propagates untouched. -/
theorem invalid_table_fallback_policy_witness :
    (get_clone_info (.error err400) (.ok [sampleCloneRecord])).1 = 1 ∧
    (get_catalog_item_variables sysIdGood (.error err400) (.ok [fallbackVarRecord])).1 = 1 ∧
    get_clone_info (.error err500) (.ok [sampleCloneRecord]) = (0, .error err500) :=
  ⟨((invalid_table_fallback_policy err400 sysIdGood (.ok [sampleCloneRecord])
      (.ok [fallbackVarRecord]) (by decide)).1 (by decide)).1,
   ((invalid_table_fallback_policy err400 sysIdGood (.ok [sampleCloneRecord])
      (.ok [fallbackVarRecord]) (by decide)).1 (by decide)).2.2.1,
   ((invalid_table_fallback_policy err500 sysIdGood (.ok [sampleCloneRecord])
      (.ok [fallbackVarRecord]) (by decide)).2 (by decide)).1⟩

/-- Claim C5 counterexample: the claim states that an empty primary result is
never returned as the final answer while the fallback is untried, for BOTH
resolvers.  For `get_catalog_item_variables`, a successful empty primary
query is returned directly (`return self.query_table("sc_item_option_new", ...)`),
with zero fallback invocations, even when the fallback would have produced a
row. -/
theorem empty_primary_variables_counterexample :
    get_catalog_item_variables sysIdGood (.ok []) (.ok [fallbackVarRecord]) = (0, .ok []) :=
  rfl

/-- Claim C5 (amended): the clone-history resolver does fall through to the
fallback table when the primary query succeeds with zero rows, but the
catalog-item-variable resolver returns the empty primary result directly and
consults its fallback only on an invalid-table error. -/
theorem empty_primary_fallback_behaviour (sid : String)
    (fbClone fbVars : Except SNError (List SNRecord))
    (hsid : is_sys_id sid = true) :
    (get_clone_info (.ok []) fbClone).1 = 1 ∧
    (get_clone_info (.ok []) fbClone).2 =
      (match fbClone with
       | .error e2 => .error e2
       | .ok records => clone_finish records) ∧
    get_catalog_item_variables sid (.ok []) fbVars = (0, .ok []) := by
  refine ⟨?_, ?_, ?_⟩
  · cases fbClone <;> simp [get_clone_info]
  · cases fbClone <;> simp [get_clone_info]
  · simp [get_catalog_item_variables, hsid]

/-- Witness for C5 (amended): concrete fallbacks. -/
theorem empty_primary_fallback_behaviour_witness :
    (get_clone_info (.ok []) (.ok [sampleCloneRecord])).1 = 1 ∧
    get_catalog_item_variables sysIdGood (.ok []) (.ok [fallbackVarRecord]) = (0, .ok []) :=
  ⟨(empty_primary_fallback_behaviour sysIdGood (.ok [sampleCloneRecord])
      (.ok [fallbackVarRecord]) (by decide)).1,
   (empty_primary_fallback_behaviour sysIdGood (.ok [sampleCloneRecord])
      (.ok [fallbackVarRecord]) (by decide)).2.2⟩

/-- Claim C9: `evaluate_clone_status` marks the clone stale both when the
days since the clone's timestamp exceed `stale_after_days` and when the
record has no usable timestamp (then `last_clone_date` and
`days_since_clone` are absent and a warning message is set); on the record
with `completed = "2024-01-01 00:00:00"`, `stale_after_days = 30`, evaluated
at 2024-03-01T00:00:00Z, it reports `days_since_clone = 60` and
`is_stale = true`. -/
theorem evaluate_clone_status_spec :
    (∀ (record : SNRecord) (tin : String) (sad now : Int),
      timestamp_value_of record = none →
      evaluate_clone_status (.ok record) tin sad now =
        .ok { last_clone_date := none, days_since_clone := none, is_stale := true,
              warning_message := some "Clone history record is missing a finished timestamp.",
              raw_record := some record, target_instance_name := some tin }) ∧
    (∀ (record : SNRecord) (tin : String) (sad now : Int) (s : String) (dt : SNDateTime),
      timestamp_value_of record = some s →
      parse_with_formats s.toList = some dt →
      sad < Int.fdiv (now - epoch_of dt) 86400 →
      (evaluate_clone_status (.ok record) tin sad now).map (fun st => st.is_stale) = .ok true) ∧
    ((evaluate_clone_status (.ok cloneScenarioRecord) "uatinst" 30
        (epoch_of { year := 2024, month := 3, day := 1, hour := 0, minute := 0, second := 0 })).map
      (fun st => (st.days_since_clone, st.is_stale)) = .ok (some 60, true)) := by
  refine ⟨?_, ?_, ?_⟩
  · intro record tin sad now h
    simp [evaluate_clone_status, h, parse_servicenow_date]
  · intro record tin sad now s dt h hp hst
    have hs : (s == "") = false := by
      rcases hbe : s == "" with _ | _
      · rfl
      · exfalso
        have : s = "" := by simpa using hbe
        rw [this] at hp
        simp [parse_with_formats] at hp
    have hp2 : parse_with_formats s.data = some dt := hp
    simp [evaluate_clone_status, h, parse_servicenow_date, hs, hp2, hst, Except.map]
  · rfl

/-- Witness for C9: the missing-timestamp branch on the empty record, and the
staleness branch on the scenario record. -/
theorem evaluate_clone_status_spec_witness :
    evaluate_clone_status (.ok ([] : SNRecord)) "uatinst" 30 0 =
      .ok { last_clone_date := none, days_since_clone := none, is_stale := true,
            warning_message := some "Clone history record is missing a finished timestamp.",
            raw_record := some [], target_instance_name := some "uatinst" } ∧
    (evaluate_clone_status (.ok cloneScenarioRecord) "uatinst" 30
        (epoch_of { year := 2024, month := 3, day := 1, hour := 0, minute := 0, second := 0 })).map
      (fun st => st.is_stale) = .ok true :=
  ⟨evaluate_clone_status_spec.1 [] "uatinst" 30 0 rfl,
   evaluate_clone_status_spec.2.1 cloneScenarioRecord "uatinst" 30
     (epoch_of { year := 2024, month := 3, day := 1, hour := 0, minute := 0, second := 0 })
     "2024-01-01 00:00:00" { year := 2024, month := 1, day := 1, hour := 0, minute := 0, second := 0 }
     rfl rfl (by decide)⟩

/-- Claim C8 counterexample: the claim states every validation run yields
exactly one `ValidationCheck` for EACH of the twelve listed names.  On a
healthy item with one variable the run yields nine checks: the
short-description family contributes a single check (here
`short_description_quality`), and no `variables_defined` check is emitted
when variables exist. -/
theorem validate_checks_claim_counterexample :
    (validate_checks goodItem goodVars).map (fun c => c.name) =
      ["item_active", "display_name_clean", "short_description_quality",
       "workflow_attached", "category_set", "media_present",
       "variable_question_text", "variable_active_state", "variable_help_text"] ∧
    (validate_checks goodItem goodVars).countP (fun c => c.name == "variables_defined") = 0 ∧
    (validate_checks goodItem goodVars).countP (fun c => c.name == "short_description_present") = 0 ∧
    (validate_checks goodItem goodVars).countP (fun c => c.name == "short_description_length") = 0 :=
  ⟨rfl, rfl, rfl, rfl⟩

/-- Claim C8 (amended): every validation run over a fetched item and its
variables yields, in order, exactly one check each of `item_active`,
`display_name_clean`, one short-description check (named
`short_description_present`, `short_description_length` or
`short_description_quality`, by the first failing rule), `workflow_attached`,
`category_set`, `media_present`, and then exactly one `variables_defined`
check when the variable list is empty, otherwise exactly one each of
`variable_question_text`, `variable_active_state`, `variable_help_text`.
Each check is computed from the item (resp. variable list) alone. -/
theorem validate_checks_shape (item : SNRecord) (vars : List SNRecord) :
    (validate_checks item vars).map (fun c => c.name) =
      ["item_active", "display_name_clean", (check_short_description item).name,
       "workflow_attached", "category_set", "media_present"] ++
      (if vars.isEmpty then ["variables_defined"]
       else ["variable_question_text", "variable_active_state", "variable_help_text"]) ∧
    ((check_short_description item).name = "short_description_present" ∨
     (check_short_description item).name = "short_description_length" ∨
     (check_short_description item).name = "short_description_quality") := by
  constructor
  · have hv := check_variables_names vars
    simp only [validate_checks, List.map_append, List.map_cons, List.map_nil,
      check_active_name, check_display_name_name, check_workflow_name,
      check_category_name, check_media_name, hv]
  · exact check_short_description_name_cases item

theorem query_table_go_page_stop (backend : Backend) (B fuel offset : Nat)
    (h0 : backend offset B ≠ []) (hlt : (backend offset B).length < B) :
    query_table_go backend B (fuel + 1) offset none =
      ([{ sysparm_offset := offset, sysparm_limit := B }], backend offset B) := by
  unfold query_table_go
  simp [List.isEmpty_iff, h0, hlt]

theorem query_table_go_continue_none (backend : Backend) (B fuel offset : Nat)
    (h0 : backend offset B ≠ []) (hge : ¬ (backend offset B).length < B) :
    query_table_go backend B (fuel + 1) offset none =
      ({ sysparm_offset := offset, sysparm_limit := B } ::
        (query_table_go backend B fuel (offset + (backend offset B).length) none).1,
       backend offset B ++
        (query_table_go backend B fuel (offset + (backend offset B).length) none).2) := by
  simp only [query_table_go]
  simp [List.isEmpty_iff, h0, hge]

theorem query_table_go_page_full (backend : Backend) (B fuel offset : Nat)
    (h0 : backend offset B ≠ []) (hfull : (backend offset B).length = B) :
    query_table_go backend B (fuel + 1) offset none =
      ({ sysparm_offset := offset, sysparm_limit := B } ::
        (query_table_go backend B fuel (offset + B) none).1,
       backend offset B ++ (query_table_go backend B fuel (offset + B) none).2) := by
  have := query_table_go_continue_none backend B fuel offset h0 (by rw [hfull]; exact Nat.lt_irrefl B)
  rwa [hfull] at this

theorem query_table_go_continue_some (backend : Backend) (B fuel offset r : Nat)
    (h0 : backend offset (min B r) ≠ [])
    (hle : ¬ r ≤ (backend offset (min B r)).length)
    (hlt : ¬ (backend offset (min B r)).length < min B r) :
    query_table_go backend B (fuel + 1) offset (some r) =
      ({ sysparm_offset := offset, sysparm_limit := min B r } ::
        (query_table_go backend B fuel (offset + (backend offset (min B r)).length)
          (some (r - (backend offset (min B r)).length))).1,
       backend offset (min B r) ++
        (query_table_go backend B fuel (offset + (backend offset (min B r)).length)
          (some (r - (backend offset (min B r)).length))).2) := by
  simp only [query_table_go]
  simp [List.isEmpty_iff, h0, hle, hlt]

theorem query_table_go_reqs_pos (backend : Backend) (B fuel offset : Nat)
    (remaining : Option Nat) :
    1 ≤ (query_table_go backend B (fuel + 1) offset remaining).1.length := by
  unfold query_table_go
  dsimp only
  split_ifs <;> simp

/-- Claim C3: against a backend whose result set has `2B + k` records
(`0 < k < B`), `query_table` with `batch_size = B` and no limit issues
exactly 3 page requests at offsets `0`, `B`, `2B` and returns exactly the
`2B + k` server records, in server order and without duplicates; in general
the loop issues a further page request exactly when the previous page was
non-empty, was not short of the requested `sysparm_limit`, and the caller's
`limit` (when given) has not yet been reached. -/
theorem query_table_pagination (B k : Nat) (rows : List SNRecord)
    (hk : 0 < k) (hkB : k < B) (hlen : rows.length = 2 * B + k) :
    (∀ fuel, 3 ≤ fuel →
      query_table (paged_backend rows) B none fuel =
        ([{ sysparm_offset := 0, sysparm_limit := B },
          { sysparm_offset := B, sysparm_limit := B },
          { sysparm_offset := 2 * B, sysparm_limit := B }], rows)) ∧
    (rows.Nodup → ∀ fuel, 3 ≤ fuel →
      (query_table (paged_backend rows) B none fuel).2.Nodup) ∧
    (∀ (backend : Backend) (offset fuel : Nat) (remaining : Option Nat),
      1 < (query_table_go backend B (fuel + 2) offset remaining).1.length ↔
        (backend offset (match remaining with | none => B | some r => min B r) ≠ [] ∧
         ¬ ((backend offset (match remaining with | none => B | some r => min B r)).length <
              (match remaining with | none => B | some r => min B r)) ∧
         (match remaining with
          | some r => ¬ (r ≤ (backend offset (min B r)).length)
          | none => True))) := by
  have hB : 0 < B := Nat.lt_trans hk hkB
  have main : ∀ fuel, 3 ≤ fuel →
      query_table (paged_backend rows) B none fuel =
        ([{ sysparm_offset := 0, sysparm_limit := B },
          { sysparm_offset := B, sysparm_limit := B },
          { sysparm_offset := 2 * B, sysparm_limit := B }], rows) := by
    intro fuel hfuel
    obtain ⟨f, rfl⟩ : ∃ f, fuel = f + 3 := ⟨fuel - 3, by omega⟩
    have len0 : (paged_backend rows 0 B).length = B := by
      simp [paged_backend, hlen]
      omega
    have ne0 : paged_backend rows 0 B ≠ [] := by
      rw [← List.length_pos, len0]
      exact hB
    have len1 : (paged_backend rows B B).length = B := by
      simp [paged_backend, hlen]
      omega
    have ne1 : paged_backend rows B B ≠ [] := by
      rw [← List.length_pos, len1]
      exact hB
    have len2 : (paged_backend rows (2 * B) B).length = k := by
      simp [paged_backend, hlen]
      omega
    have ne2 : paged_backend rows (2 * B) B ≠ [] := by
      rw [← List.length_pos, len2]
      exact hk
    have lt2 : (paged_backend rows (2 * B) B).length < B := by
      rw [len2]
      exact hkB
    have hBB : B + B = 2 * B := by omega
    have step0 := query_table_go_page_full (paged_backend rows) B (f + 2) 0 ne0 len0
    have step1 := query_table_go_page_full (paged_backend rows) B (f + 1) B ne1 len1
    have step2 := query_table_go_page_stop (paged_backend rows) B f (2 * B) ne2 lt2
    have hrows : paged_backend rows 0 B ++
        (paged_backend rows B B ++ paged_backend rows (2 * B) B) = rows := by
      have h2 : (rows.drop (2 * B)).take B = (rows.drop B).drop B := by
        rw [List.take_of_length_le (by simp [hlen]; omega), List.drop_drop, hBB]
      simp only [paged_backend, List.drop_zero]
      rw [h2, List.take_append_drop, List.take_append_drop]
    rw [query_table, show f + 3 = f + 2 + 1 from rfl, step0, Nat.zero_add,
      show f + 2 = f + 1 + 1 from rfl, step1, hBB, step2, hrows]
  refine ⟨main, ?_, ?_⟩
  · intro hnd fuel hfuel
    rw [main fuel hfuel]
    exact hnd
  · intro backend offset fuel remaining
    cases remaining with
    | none =>
      by_cases h0 : backend offset B = []
      · have heq : query_table_go backend B (fuel + 2) offset none =
            ([{ sysparm_offset := offset, sysparm_limit := B }], []) := by
          unfold query_table_go
          simp [List.isEmpty_iff, h0]
        simp [heq, h0]
      · by_cases hlt : (backend offset B).length < B
        · have heq := query_table_go_page_stop backend B (fuel + 1) offset h0 hlt
          rw [show fuel + 2 = fuel + 1 + 1 from rfl, heq]
          simp [h0, hlt]
        · have heq := query_table_go_continue_none backend B (fuel + 1) offset h0 hlt
          rw [show fuel + 2 = fuel + 1 + 1 from rfl, heq]
          have hpos := query_table_go_reqs_pos backend B fuel
            (offset + (backend offset B).length) none
          simp only [List.length_cons]
          simp [h0, hlt]
          omega
    | some r =>
      by_cases h0 : backend offset (min B r) = []
      · have heq : query_table_go backend B (fuel + 2) offset (some r) =
            ([{ sysparm_offset := offset, sysparm_limit := min B r }], []) := by
          unfold query_table_go
          simp [List.isEmpty_iff, h0]
        simp [heq, h0]
      · by_cases hle : r ≤ (backend offset (min B r)).length
        · have heq : query_table_go backend B (fuel + 2) offset (some r) =
              ([{ sysparm_offset := offset, sysparm_limit := min B r }],
                backend offset (min B r)) := by
            unfold query_table_go
            simp [List.isEmpty_iff, h0, hle]
          simp [heq, h0, hle]
        · by_cases hlt : (backend offset (min B r)).length < min B r
          · have heq : query_table_go backend B (fuel + 2) offset (some r) =
                ([{ sysparm_offset := offset, sysparm_limit := min B r }],
                  backend offset (min B r)) := by
              unfold query_table_go
              simp [List.isEmpty_iff, h0, hle, hlt]
            simp [heq, h0, hle, hlt]
          · have heq := query_table_go_continue_some backend B (fuel + 1) offset r h0 hle hlt
            have hpos := query_table_go_reqs_pos backend B fuel
              (offset + (backend offset (min B r)).length)
              (some (r - (backend offset (min B r)).length))
            rw [show fuel + 2 = fuel + 1 + 1 from rfl, heq]
            simp only [List.length_cons]
            simp [h0, hle, hlt]
            omega

/-- Witness for C3: the concrete run with `B = 2`, `k = 1` over five
records. -/
theorem query_table_pagination_witness :
    0 < 1 ∧ 1 < 2 ∧ rows5.length = 2 * 2 + 1 ∧
    query_table (paged_backend rows5) 2 none 5 =
      ([{ sysparm_offset := 0, sysparm_limit := 2 },
        { sysparm_offset := 2, sysparm_limit := 2 },
        { sysparm_offset := 2 * 2, sysparm_limit := 2 }], rows5) :=
  ⟨by decide, by decide, rfl,
   (query_table_pagination 2 1 rows5 (by decide) (by decide) rfl).1 5 (by decide)⟩
